import Mathlib

/-
Verification of the chip-abstraction layer of espflash
(src/espflash/src/chip/mod.rs): chip identity, magic-value detection,
SPI register address computation, and the byte-exact firmware header
layouts.  Machine integers are modelled as Nat with explicit reduction
modulo 2^32 where wrap-around could occur.
-/

/-- 2^32, the modulus of u32 arithmetic. -/
def U32_MOD : Nat := 4294967296

/-- Error kinds of the chip layer (spec section 7): a chip name or magic
value matching no known family, or too few bytes during header
deserialization. -/
inductive Error where
  | UnrecognizedChip
  | TruncatedHeader
  deriving DecidableEq, Repr

/-- The closed set of supported chip families (enum Chip, mod.rs lines
84-89). -/
inductive Chip where
  | Esp8266
  | Esp32
  | Esp32s2
  deriving DecidableEq, Repr

/-- Modelled from the spec: the per-family primary magic constant
`CHIP_DETECT_MAGIC_VALUE` (trait ChipType, mod.rs line 18).  The per-family
implementation files esp8266.rs, esp32.rs and esp32s2.rs are not under
src/; the spec (glossary, section 4.3) requires each family to supply one
fixed 32-bit primary magic identifier, distinct per family.  The concrete
values are the families' well-known boot-ROM magic identifiers. -/
def chipDetectMagicValue : Chip → Nat
  | Chip.Esp8266 => 0xfff0c101
  | Chip.Esp32 => 0x00f01d83
  | Chip.Esp32s2 => 0x000007c6

/-- Modelled from the spec: the per-family secondary magic constant
`CHIP_DETECT_MAGIC_VALUE2`.  The trait declares the default `= 0x0`
(mod.rs line 19, "give default value, as most chips don't only have
one"); the per-family implementation files are not under src/ and the
spec states the secondary value "defaults to zero for families that
don't use one", naming no family that overrides it. -/
def chipDetectMagicValue2 : Chip → Nat := fun _ => 0

/-- Chip::from_magic (mod.rs lines 92-99): match the magic value against
each family's primary `CHIP_DETECT_MAGIC_VALUE`, in source arm order;
no arm consults `CHIP_DETECT_MAGIC_VALUE2`. -/
def Chip.from_magic (magic : Nat) : Option Chip :=
  if magic = chipDetectMagicValue Chip.Esp8266 then some Chip.Esp8266
  else if magic = chipDetectMagicValue Chip.Esp32 then some Chip.Esp32
  else if magic = chipDetectMagicValue Chip.Esp32s2 then some Chip.Esp32s2
  else none

/-- FromStr for Chip (mod.rs lines 129-140): exact, case-sensitive match
on the three family names, otherwise Error::UnrecognizedChip. -/
def Chip.from_str (s : String) : Except Error Chip :=
  if s = "esp32" then Except.ok Chip.Esp32
  else if s = "esp32s2" then Except.ok Chip.Esp32s2
  else if s = "esp8266" then Except.ok Chip.Esp8266
  else Except.error Error.UnrecognizedChip

/-- SpiRegisters (mod.rs lines 31-39): a base address and the per-register
offsets; the MOSI/MISO length offsets are optional. -/
structure SpiRegisters where
  base : Nat
  usr_offset : Nat
  usr1_offset : Nat
  usr2_offset : Nat
  w0_offset : Nat
  mosi_length_offset : Option Nat
  miso_length_offset : Option Nat
  deriving DecidableEq, Repr

/-- SpiRegisters::cmd (mod.rs lines 42-44): the base address itself. -/
def SpiRegisters.cmd (r : SpiRegisters) : Nat := r.base

/-- SpiRegisters::usr (mod.rs lines 46-48). -/
def SpiRegisters.usr (r : SpiRegisters) : Nat :=
  (r.base + r.usr_offset) % U32_MOD

/-- SpiRegisters::usr1 (mod.rs lines 50-52). -/
def SpiRegisters.usr1 (r : SpiRegisters) : Nat :=
  (r.base + r.usr1_offset) % U32_MOD

/-- SpiRegisters::usr2 (mod.rs lines 54-56). -/
def SpiRegisters.usr2 (r : SpiRegisters) : Nat :=
  (r.base + r.usr2_offset) % U32_MOD

/-- SpiRegisters::w0 (mod.rs lines 58-60). -/
def SpiRegisters.w0 (r : SpiRegisters) : Nat :=
  (r.base + r.w0_offset) % U32_MOD

/-- SpiRegisters::mosi_length (mod.rs lines 62-64). -/
def SpiRegisters.mosi_length (r : SpiRegisters) : Option Nat :=
  r.mosi_length_offset.map (fun offset => (r.base + offset) % U32_MOD)

/-- SpiRegisters::miso_length (mod.rs lines 66-68). -/
def SpiRegisters.miso_length (r : SpiRegisters) : Option Nat :=
  r.miso_length_offset.map (fun offset => (r.base + offset) % U32_MOD)

/-- Little-endian byte encoding of a u16 value. -/
def u16le (n : Nat) : List Nat :=
  [n % 256, n / 256 % 256]

/-- Little-endian byte encoding of a u32 value. -/
def u32le (n : Nat) : List Nat :=
  [n % 256, n / 256 % 256, n / 65536 % 256, n / 16777216 % 256]

/-- Little-endian value of a byte list: the head is the least significant
byte. -/
def leVal (bs : List Nat) : Nat :=
  bs.foldr (fun b acc => b + 256 * acc) 0

/-- EspCommonHeader (mod.rs lines 142-150): repr(C) Pod struct of four u8
fields followed by a u32 entry address. -/
structure EspCommonHeader where
  magic : Nat
  segment_count : Nat
  flash_mode : Nat
  flash_config : Nat
  entry : Nat
  deriving DecidableEq, Repr

/-- ExtendedHeader (mod.rs lines 71-82): repr(C) Pod struct of four u8
fields, a u16 chip id, a u8 minimum revision, an 8-byte reserved array and
a trailing u8 digest flag. -/
structure ExtendedHeader where
  wp_pin : Nat
  clk_q_drv : Nat
  d_cs_drv : Nat
  gd_wp_drv : Nat
  chip_id : Nat
  min_rev : Nat
  padding : List Nat
  append_digest : Nat
  deriving DecidableEq, Repr

/-- SegmentHeader (mod.rs lines 152-157): repr(C) Pod struct of two u32
fields, destination address and payload length. -/
structure SegmentHeader where
  addr : Nat
  length : Nat
  deriving DecidableEq, Repr

/-- Field values are in range for the declared machine type. -/
def EspCommonHeader.wf (h : EspCommonHeader) : Prop :=
  h.magic < 256 ∧ h.segment_count < 256 ∧ h.flash_mode < 256 ∧
    h.flash_config < 256 ∧ h.entry < U32_MOD

instance (h : EspCommonHeader) : Decidable h.wf := by
  unfold EspCommonHeader.wf; infer_instance

/-- Field values are in range and the reserved array holds exactly 8
bytes. -/
def ExtendedHeader.wf (h : ExtendedHeader) : Prop :=
  h.wp_pin < 256 ∧ h.clk_q_drv < 256 ∧ h.d_cs_drv < 256 ∧
    h.gd_wp_drv < 256 ∧ h.chip_id < 65536 ∧ h.min_rev < 256 ∧
    h.padding.length = 8 ∧ (∀ b ∈ h.padding, b < 256) ∧
    h.append_digest < 256

instance (h : ExtendedHeader) : Decidable h.wf := by
  unfold ExtendedHeader.wf; infer_instance

/-- Field values are in range for u32. -/
def SegmentHeader.wf (h : SegmentHeader) : Prop :=
  h.addr < U32_MOD ∧ h.length < U32_MOD

instance (h : SegmentHeader) : Decidable h.wf := by
  unfold SegmentHeader.wf; infer_instance

/-- Modelled from the spec: exact-size serialization of EspCommonHeader
(spec sections 4.1 and 6).  The repr(C) field order and widths come from
the struct declared in mod.rs lines 142-150; the bytemuck-based byte
serialization itself is not under src/.  Fields appear in declaration
order, multi-byte fields little-endian, no alignment gaps. -/
def EspCommonHeader.toBytes (h : EspCommonHeader) : List Nat :=
  [h.magic % 256, h.segment_count % 256, h.flash_mode % 256,
    h.flash_config % 256] ++ u32le h.entry

/-- Modelled from the spec: exact-size serialization of ExtendedHeader
(spec sections 4.1 and 6); field order and widths from mod.rs lines
71-82, the serialization code itself is not under src/. -/
def ExtendedHeader.toBytes (h : ExtendedHeader) : List Nat :=
  [h.wp_pin % 256, h.clk_q_drv % 256, h.d_cs_drv % 256, h.gd_wp_drv % 256]
    ++ u16le h.chip_id ++ [h.min_rev % 256]
    ++ h.padding.map (fun b => b % 256) ++ [h.append_digest % 256]

/-- Modelled from the spec: exact-size serialization of SegmentHeader
(spec sections 4.1 and 6); field order and widths from mod.rs lines
152-157, the serialization code itself is not under src/. -/
def SegmentHeader.toBytes (h : SegmentHeader) : List Nat :=
  u32le h.addr ++ u32le h.length

/-- Modelled from the spec: deserialization of EspCommonHeader (spec
section 4.1) — "deserializing a byte sequence shorter than the declared
size fails with a TruncatedHeader error"; the deserialization code is not
under src/.  The declared size of the common header is 8 bytes. -/
def EspCommonHeader.fromBytes (bs : List Nat) : Except Error EspCommonHeader :=
  if bs.length < 8 then Except.error Error.TruncatedHeader
  else Except.ok ⟨bs.getD 0 0, bs.getD 1 0, bs.getD 2 0, bs.getD 3 0,
    leVal ((bs.drop 4).take 4)⟩

/-- Modelled from the spec: deserialization of ExtendedHeader (spec
section 4.1), declared size 16 bytes; the deserialization code is not
under src/. -/
def ExtendedHeader.fromBytes (bs : List Nat) : Except Error ExtendedHeader :=
  if bs.length < 16 then Except.error Error.TruncatedHeader
  else Except.ok ⟨bs.getD 0 0, bs.getD 1 0, bs.getD 2 0, bs.getD 3 0,
    leVal ((bs.drop 4).take 2), bs.getD 6 0, (bs.drop 7).take 8,
    bs.getD 15 0⟩

/-- Modelled from the spec: deserialization of SegmentHeader (spec
section 4.1), declared size 8 bytes; the deserialization code is not
under src/. -/
def SegmentHeader.fromBytes (bs : List Nat) : Except Error SegmentHeader :=
  if bs.length < 8 then Except.error Error.TruncatedHeader
  else Except.ok ⟨leVal (bs.take 4), leVal ((bs.drop 4).take 4)⟩

/-- ESP_MAGIC (mod.rs line 14): the reserved common-header magic byte. -/
def ESP_MAGIC : Nat := 0xe9

/-- WP_PIN_DISABLED (mod.rs line 15): the sentinel encoding the absence
of a real write-protect pin. -/
def WP_PIN_DISABLED : Nat := 0xEE

/-- Modelled from the spec: common-header construction during image
production (spec sections 3 and 4.3) — the segment-generation code in the
per-family files is not under src/.  The magic byte of every produced
image is the reserved sentinel ESP_MAGIC. -/
def mkCommonHeader (segment_count flash_mode flash_config entry : Nat) :
    EspCommonHeader :=
  ⟨ESP_MAGIC, segment_count, flash_mode, flash_config, entry⟩

/-- Modelled from the spec: extended-header construction during image
production (spec section 3) — the per-family code is not under src/.
Absence of a real write-protect pin is encoded with WP_PIN_DISABLED and
the reserved bytes are zero-filled. -/
def mkExtendedHeader (clk_q_drv d_cs_drv gd_wp_drv chip_id min_rev
    append_digest : Nat) : ExtendedHeader :=
  ⟨WP_PIN_DISABLED, clk_q_drv, d_cs_drv, gd_wp_drv, chip_id, min_rev,
    List.replicate 8 0, append_digest⟩

/-- Modelled from the spec: image acceptance (spec section 3 invariant,
"magic byte is always the reserved sentinel on any image this layer
produces or accepts") — the accepting code is not under src/.  A common
header is accepted only when its magic byte is ESP_MAGIC. -/
def acceptCommonHeader (bs : List Nat) : Option EspCommonHeader :=
  match EspCommonHeader.fromBytes bs with
  | Except.error _ => none
  | Except.ok h => if h.magic = ESP_MAGIC then some h else none

/-- C1 counterexample: the value 0 equals the Esp8266 family's secondary
magic value (the default), yet Chip::from_magic does not recognize it as
any family — from_magic consults only the primary magic values, refuting
the claim that a value equal to some family's secondary magic value is
recognized as that family. -/
theorem c1_secondary_magic_counterexample :
    chipDetectMagicValue2 Chip.Esp8266 = 0 ∧ Chip.from_magic 0 = none := by
  decide

/-- C1 (amended): for every family, Chip::from_magic of that family's
primary magic value returns that family, and from_magic of any value
equal to no family's primary magic value returns none — in particular a
value equal only to a secondary magic value is NOT recognized, since
from_magic never consults the secondary magic values. -/
theorem c1_from_magic_amended :
    (∀ c : Chip, Chip.from_magic (chipDetectMagicValue c) = some c) ∧
    (∀ v : Nat, (∀ c : Chip, v ≠ chipDetectMagicValue c) →
      Chip.from_magic v = none) := by
  constructor
  · intro c
    cases c <;> decide
  · intro v hv
    unfold Chip.from_magic
    rw [if_neg (hv Chip.Esp8266), if_neg (hv Chip.Esp32),
      if_neg (hv Chip.Esp32s2)]

/-- C1 witness: from_magic at the concrete value 7, which is no family's
primary magic value, returns none. -/
theorem c1_from_magic_amended_witness : Chip.from_magic 7 = none :=
  c1_from_magic_amended.2 7 (by intro c; cases c <;> decide)

/-- C4: Chip::from_str succeeds exactly on the three case-sensitive
strings "esp32", "esp32s2" and "esp8266", and fails with
Error::UnrecognizedChip on every other string. -/
theorem c4_from_str_exact :
    Chip.from_str "esp32" = Except.ok Chip.Esp32 ∧
    Chip.from_str "esp32s2" = Except.ok Chip.Esp32s2 ∧
    Chip.from_str "esp8266" = Except.ok Chip.Esp8266 ∧
    ∀ s : String, s ≠ "esp32" → s ≠ "esp32s2" → s ≠ "esp8266" →
      Chip.from_str s = Except.error Error.UnrecognizedChip := by
  refine ⟨rfl, rfl, rfl, ?_⟩
  intro s h1 h2 h3
  unfold Chip.from_str
  rw [if_neg h1, if_neg h2, if_neg h3]

/-- C4 witness: from_str at the concrete string "esp99" fails with
UnrecognizedChip. -/
theorem c4_from_str_exact_witness :
    Chip.from_str "esp99" = Except.error Error.UnrecognizedChip :=
  c4_from_str_exact.2.2.2 "esp99" (by decide) (by decide) (by decide)

/-- C7: Chip::from_str("esp8266") succeeds with family Esp8266, and its
result equals Chip::from_magic of the Esp8266 family's primary magic
value. -/
theorem c7_from_str_matches_from_magic :
    Chip.from_str "esp8266" = Except.ok Chip.Esp8266 ∧
    Chip.from_magic (chipDetectMagicValue Chip.Esp8266) = some Chip.Esp8266 ∧
    (Chip.from_str "esp8266").toOption =
      Chip.from_magic (chipDetectMagicValue Chip.Esp8266) := by
  refine ⟨rfl, by decide, by decide⟩

/-- C9: every family's secondary magic constant is the default zero, the
sentinel meaning "not used". -/
theorem c9_secondary_magic_defaults_zero :
    ∀ c : Chip, chipDetectMagicValue2 c = 0 :=
  fun _ => rfl

/-- C10: SpiRegisters::cmd returns the base address itself unchanged,
while usr, usr1, usr2 and w0 each add a stored offset; and the structure
carries no further field beyond the base and the six offsets, so no
separate cmd offset field exists. -/
theorem c10_cmd_returns_base :
    (∀ r : SpiRegisters, r.cmd = r.base) ∧
    (∀ r : SpiRegisters, r.usr = (r.base + r.usr_offset) % U32_MOD ∧
      r.usr1 = (r.base + r.usr1_offset) % U32_MOD ∧
      r.usr2 = (r.base + r.usr2_offset) % U32_MOD ∧
      r.w0 = (r.base + r.w0_offset) % U32_MOD) ∧
    (∀ r s : SpiRegisters, r.base = s.base → r.usr_offset = s.usr_offset →
      r.usr1_offset = s.usr1_offset → r.usr2_offset = s.usr2_offset →
      r.w0_offset = s.w0_offset →
      r.mosi_length_offset = s.mosi_length_offset →
      r.miso_length_offset = s.miso_length_offset → r = s) := by
  refine ⟨fun r => rfl, fun r => ⟨rfl, rfl, rfl, rfl⟩, ?_⟩
  intro r s h1 h2 h3 h4 h5 h6 h7
  cases r
  cases s
  simp_all

/-- C10 witness: cmd of a concrete register table is its base address,
and a concrete table with the seven given fields is uniquely
determined. -/
theorem c10_cmd_returns_base_witness :
    SpiRegisters.cmd ⟨1610620928, 28, 32, 36, 128, some 40, some 44⟩ =
      1610620928 ∧
    (⟨1610620928, 28, 32, 36, 128, some 40, some 44⟩ : SpiRegisters) =
      ⟨1610620928, 28, 32, 36, 128, some 40, some 44⟩ :=
  ⟨c10_cmd_returns_base.1 _,
    c10_cmd_returns_base.2.2 _ _ rfl rfl rfl rfl rfl rfl rfl⟩

/-- C3: every derived SpiRegisters address equals base + offset exactly
(absent u32 overflow), and the optional mosi_length and miso_length
registers are "not present" exactly when the owning table declares no
offset for them. -/
theorem c3_spi_register_addresses (r : SpiRegisters)
    (husr : r.base + r.usr_offset < U32_MOD)
    (husr1 : r.base + r.usr1_offset < U32_MOD)
    (husr2 : r.base + r.usr2_offset < U32_MOD)
    (hw0 : r.base + r.w0_offset < U32_MOD)
    (hmosi : ∀ o, r.mosi_length_offset = some o → r.base + o < U32_MOD)
    (hmiso : ∀ o, r.miso_length_offset = some o → r.base + o < U32_MOD) :
    r.cmd = r.base ∧
    r.usr = r.base + r.usr_offset ∧
    r.usr1 = r.base + r.usr1_offset ∧
    r.usr2 = r.base + r.usr2_offset ∧
    r.w0 = r.base + r.w0_offset ∧
    (∀ o, r.mosi_length_offset = some o →
      r.mosi_length = some (r.base + o)) ∧
    (r.mosi_length = none ↔ r.mosi_length_offset = none) ∧
    (∀ o, r.miso_length_offset = some o →
      r.miso_length = some (r.base + o)) ∧
    (r.miso_length = none ↔ r.miso_length_offset = none) := by
  refine ⟨rfl, Nat.mod_eq_of_lt husr, Nat.mod_eq_of_lt husr1,
    Nat.mod_eq_of_lt husr2, Nat.mod_eq_of_lt hw0, ?_, ?_, ?_, ?_⟩
  · intro o ho
    simp [SpiRegisters.mosi_length, ho, Nat.mod_eq_of_lt (hmosi o ho)]
  · cases hr : r.mosi_length_offset <;>
      simp [SpiRegisters.mosi_length, hr]
  · intro o ho
    simp [SpiRegisters.miso_length, ho, Nat.mod_eq_of_lt (hmiso o ho)]
  · cases hr : r.miso_length_offset <;>
      simp [SpiRegisters.miso_length, hr]

/-- C3 witness: the derived addresses of a concrete register table. -/
theorem c3_spi_register_addresses_witness :
    SpiRegisters.usr ⟨1072963584, 28, 32, 36, 128, some 40, some 44⟩ =
      1072963584 + 28 ∧
    SpiRegisters.mosi_length ⟨1072963584, 28, 32, 36, 128, some 40, some 44⟩ =
      some (1072963584 + 40) := by
  have h := c3_spi_register_addresses
    ⟨1072963584, 28, 32, 36, 128, some 40, some 44⟩
    (by decide) (by decide) (by decide) (by decide)
    (by intro o ho; simp at ho; subst ho; decide)
    (by intro o ho; simp at ho; subst ho; decide)
  exact ⟨h.2.1, h.2.2.2.2.2.1 40 rfl⟩

/-- A byte list of length 8 is a literal list of its 8 elements. -/
theorem length_eight_destruct {l : List Nat} (h : l.length = 8) :
    ∃ b0 b1 b2 b3 b4 b5 b6 b7,
      l = [b0, b1, b2, b3, b4, b5, b6, b7] := by
  rcases l with _ | ⟨b0, l⟩
  · simp at h
  rcases l with _ | ⟨b1, l⟩
  · simp at h
  rcases l with _ | ⟨b2, l⟩
  · simp at h
  rcases l with _ | ⟨b3, l⟩
  · simp at h
  rcases l with _ | ⟨b4, l⟩
  · simp at h
  rcases l with _ | ⟨b5, l⟩
  · simp at h
  rcases l with _ | ⟨b6, l⟩
  · simp at h
  rcases l with _ | ⟨b7, l⟩
  · simp at h
  rcases l with _ | ⟨b8, l⟩
  · exact ⟨b0, b1, b2, b3, b4, b5, b6, b7, rfl⟩
  · simp at h

/-- Decoding the little-endian u32 encoding recovers the value. -/
theorem leVal_u32le {n : Nat} (h : n < U32_MOD) : leVal (u32le n) = n := by
  unfold U32_MOD at h
  simp [leVal, u32le]
  omega

/-- Decoding the little-endian u16 encoding recovers the value. -/
theorem leVal_u16le {n : Nat} (h : n < 65536) : leVal (u16le n) = n := by
  simp [leVal, u16le]
  omega

/-- C2: each header type serializes to exactly its documented size with
every field at its fixed byte offset and no implicit gaps: the common
header is 8 bytes (magic at 0, segment_count at 1, flash_mode at 2,
flash_config at 3, entry as u32 at 4), the extended header is 16 bytes
(wp_pin at 0, clk_q_drv at 1, d_cs_drv at 2, gd_wp_drv at 3, chip_id as
u16 at 4, min_rev at 6, the 8 reserved bytes at 7, append_digest at 15),
and the segment header is 8 bytes (addr as u32 at 0, length as u32 at
4). -/
theorem c2_header_layout :
    (∀ h : EspCommonHeader, h.wf →
      h.toBytes.length = 8 ∧
      h.toBytes.getD 0 0 = h.magic ∧
      h.toBytes.getD 1 0 = h.segment_count ∧
      h.toBytes.getD 2 0 = h.flash_mode ∧
      h.toBytes.getD 3 0 = h.flash_config ∧
      leVal (h.toBytes.drop 4) = h.entry) ∧
    (∀ h : ExtendedHeader, h.wf →
      h.toBytes.length = 16 ∧
      h.toBytes.getD 0 0 = h.wp_pin ∧
      h.toBytes.getD 1 0 = h.clk_q_drv ∧
      h.toBytes.getD 2 0 = h.d_cs_drv ∧
      h.toBytes.getD 3 0 = h.gd_wp_drv ∧
      leVal ((h.toBytes.drop 4).take 2) = h.chip_id ∧
      h.toBytes.getD 6 0 = h.min_rev ∧
      (h.toBytes.drop 7).take 8 = h.padding ∧
      h.toBytes.getD 15 0 = h.append_digest) ∧
    (∀ h : SegmentHeader, h.wf →
      h.toBytes.length = 8 ∧
      leVal (h.toBytes.take 4) = h.addr ∧
      leVal (h.toBytes.drop 4) = h.length) := by
  refine ⟨?_, ?_, ?_⟩
  · intro h hwf
    obtain ⟨hm, hsc, hfm, hfc, he⟩ := hwf
    exact ⟨rfl, Nat.mod_eq_of_lt hm, Nat.mod_eq_of_lt hsc,
      Nat.mod_eq_of_lt hfm, Nat.mod_eq_of_lt hfc, leVal_u32le he⟩
  · intro h hwf
    obtain ⟨hwp, hclk, hdcs, hgd, hcid, hmin, hlen, hmem, had⟩ := hwf
    obtain ⟨b0, b1, b2, b3, b4, b5, b6, b7, hpad⟩ :=
      length_eight_destruct hlen
    have hb0 : b0 < 256 := hmem b0 (by simp [hpad])
    have hb1 : b1 < 256 := hmem b1 (by simp [hpad])
    have hb2 : b2 < 256 := hmem b2 (by simp [hpad])
    have hb3 : b3 < 256 := hmem b3 (by simp [hpad])
    have hb4 : b4 < 256 := hmem b4 (by simp [hpad])
    have hb5 : b5 < 256 := hmem b5 (by simp [hpad])
    have hb6 : b6 < 256 := hmem b6 (by simp [hpad])
    have hb7 : b7 < 256 := hmem b7 (by simp [hpad])
    have hbytes : h.toBytes =
        [h.wp_pin % 256, h.clk_q_drv % 256, h.d_cs_drv % 256,
          h.gd_wp_drv % 256, h.chip_id % 256, h.chip_id / 256 % 256,
          h.min_rev % 256, b0 % 256, b1 % 256, b2 % 256, b3 % 256,
          b4 % 256, b5 % 256, b6 % 256, b7 % 256,
          h.append_digest % 256] := by
      simp [ExtendedHeader.toBytes, hpad, u16le]
    rw [hbytes]
    refine ⟨rfl, Nat.mod_eq_of_lt hwp, Nat.mod_eq_of_lt hclk,
      Nat.mod_eq_of_lt hdcs, Nat.mod_eq_of_lt hgd, ?_,
      Nat.mod_eq_of_lt hmin, ?_, Nat.mod_eq_of_lt had⟩
    · show h.chip_id % 256 + 256 * (h.chip_id / 256 % 256 + 256 * 0) =
        h.chip_id
      omega
    · rw [hpad]
      show [b0 % 256, b1 % 256, b2 % 256, b3 % 256, b4 % 256, b5 % 256,
        b6 % 256, b7 % 256] = [b0, b1, b2, b3, b4, b5, b6, b7]
      simp [Nat.mod_eq_of_lt hb0, Nat.mod_eq_of_lt hb1,
        Nat.mod_eq_of_lt hb2, Nat.mod_eq_of_lt hb3, Nat.mod_eq_of_lt hb4,
        Nat.mod_eq_of_lt hb5, Nat.mod_eq_of_lt hb6, Nat.mod_eq_of_lt hb7]
  · intro h hwf
    exact ⟨rfl, leVal_u32le hwf.1, leVal_u32le hwf.2⟩

/-- C2 witness: concrete headers serialize to 8, 16 and 8 bytes with the
documented field placement. -/
theorem c2_header_layout_witness :
    (EspCommonHeader.toBytes ⟨233, 1, 2, 3, 1074266112⟩).length = 8 ∧
    (ExtendedHeader.toBytes
      ⟨238, 0, 0, 0, 2, 5, [0, 0, 0, 0, 0, 0, 0, 0], 1⟩).length = 16 ∧
    (SegmentHeader.toBytes ⟨4096, 4096⟩).length = 8 :=
  ⟨(c2_header_layout.1 _ (by decide)).1,
    (c2_header_layout.2.1 _ (by decide)).1,
    (c2_header_layout.2.2 _ (by decide)).1⟩

/-- C8: every multi-byte integer field (entry, chip_id, addr, length)
occupies its fixed byte range in little-endian order: the serialized
bytes of each such field are exactly its little-endian encoding, whose
first byte carries the least significant 8 bits and whose later bytes
carry successively more significant bits. -/
theorem c8_little_endian :
    (∀ h : EspCommonHeader, h.toBytes.drop 4 = u32le h.entry) ∧
    (∀ h : ExtendedHeader, (h.toBytes.drop 4).take 2 = u16le h.chip_id) ∧
    (∀ h : SegmentHeader,
      h.toBytes.take 4 = u32le h.addr ∧ h.toBytes.drop 4 = u32le h.length) ∧
    (∀ n : Nat, n < U32_MOD →
      n = (u32le n).getD 0 0 + 256 * (u32le n).getD 1 0 +
        65536 * (u32le n).getD 2 0 + 16777216 * (u32le n).getD 3 0) ∧
    (∀ n : Nat, n < 65536 →
      n = (u16le n).getD 0 0 + 256 * (u16le n).getD 1 0) := by
  refine ⟨fun h => rfl, fun h => rfl, fun h => ⟨rfl, rfl⟩, ?_, ?_⟩
  · intro n hn
    unfold U32_MOD at hn
    show n = n % 256 + 256 * (n / 256 % 256) + 65536 * (n / 65536 % 256) +
      16777216 * (n / 16777216 % 256)
    omega
  · intro n hn
    show n = n % 256 + 256 * (n / 256 % 256)
    omega

/-- C8 witness: the little-endian positional decomposition at the
concrete value 0x12345678. -/
theorem c8_little_endian_witness :
    (305419896 : Nat) = (u32le 305419896).getD 0 0 +
      256 * (u32le 305419896).getD 1 0 +
      65536 * (u32le 305419896).getD 2 0 +
      16777216 * (u32le 305419896).getD 3 0 :=
  c8_little_endian.2.2.2.1 305419896 (by decide)

/-- C5: deserializing a byte sequence shorter than a header type's
declared size (8, 16 and 8 bytes respectively) fails with
TruncatedHeader. -/
theorem c5_truncated_header :
    (∀ bs : List Nat, bs.length < 8 →
      EspCommonHeader.fromBytes bs = Except.error Error.TruncatedHeader) ∧
    (∀ bs : List Nat, bs.length < 16 →
      ExtendedHeader.fromBytes bs = Except.error Error.TruncatedHeader) ∧
    (∀ bs : List Nat, bs.length < 8 →
      SegmentHeader.fromBytes bs = Except.error Error.TruncatedHeader) := by
  refine ⟨?_, ?_, ?_⟩
  · intro bs hbs
    unfold EspCommonHeader.fromBytes
    rw [if_pos hbs]
  · intro bs hbs
    unfold ExtendedHeader.fromBytes
    rw [if_pos hbs]
  · intro bs hbs
    unfold SegmentHeader.fromBytes
    rw [if_pos hbs]

/-- C5 witness: a 5-byte buffer deserialized as the 8-byte common header
fails with TruncatedHeader. -/
theorem c5_truncated_header_witness :
    EspCommonHeader.fromBytes [0, 0, 0, 0, 0] =
      Except.error Error.TruncatedHeader :=
  c5_truncated_header.1 [0, 0, 0, 0, 0] (by decide)

/-- C6: the common-header magic byte of any produced or accepted image is
the reserved sentinel 0xE9, and absence of a real write-protect pin is
encoded with the disabled sentinel 0xEE, which is not the real pin value
0. -/
theorem c6_sentinel_invariants :
    ESP_MAGIC = 233 ∧ WP_PIN_DISABLED = 238 ∧ WP_PIN_DISABLED ≠ 0 ∧
    (∀ sc fm fc e : Nat, (mkCommonHeader sc fm fc e).magic = ESP_MAGIC) ∧
    (∀ c d g ci mr ad : Nat,
      (mkExtendedHeader c d g ci mr ad).wp_pin = WP_PIN_DISABLED ∧
      (mkExtendedHeader c d g ci mr ad).wp_pin ≠ 0) ∧
    (∀ bs : List Nat, ∀ h : EspCommonHeader,
      acceptCommonHeader bs = some h → h.magic = ESP_MAGIC) := by
  refine ⟨rfl, rfl, by decide, fun _ _ _ _ => rfl, ?_, ?_⟩
  · intro c d g ci mr ad
    refine ⟨rfl, ?_⟩
    show (238 : Nat) ≠ 0
    decide
  intro bs h hacc
  unfold acceptCommonHeader at hacc
  cases hfb : EspCommonHeader.fromBytes bs with
  | error e =>
    rw [hfb] at hacc
    simp at hacc
  | ok h0 =>
    rw [hfb] at hacc
    simp only [] at hacc
    by_cases hm : h0.magic = ESP_MAGIC
    · rw [if_pos hm] at hacc
      injection hacc with hh
      rw [← hh]
      exact hm
    · rw [if_neg hm] at hacc
      exact absurd hacc (by simp)

/-- C6 witness: the concrete accepted header with magic byte 0xE9. -/
theorem c6_sentinel_invariants_witness :
    (⟨233, 0, 0, 0, 0⟩ : EspCommonHeader).magic = ESP_MAGIC :=
  c6_sentinel_invariants.2.2.2.2.2 [233, 0, 0, 0, 0, 0, 0, 0]
    ⟨233, 0, 0, 0, 0⟩ (by decide)
